import Mathlib

/-!
Shallow embedding of `src/backend/main.py`: a FastAPI service wrapping the
Qwen image-editing diffusion pipeline.  Third-party effects (PIL decoding,
pixel conversion, the diffusion model itself, PNG encoding, model loading)
are abstracted into an environment of (possibly failing) functions; the
locally authored control flow and data flow of `main.py` are translated
line by line.  Python exceptions become `Except String` values carrying the
exception message (`str(e)`).
-/

namespace QwenBackend

/-- Raw bytes of a multipart file upload (`UploadFile`). -/
structure UploadFile where
  content : List Nat
  deriving DecidableEq, Repr

/-- An in-memory PIL image: its color mode (e.g. `"RGB"`, `"RGBA"`) and
abstract pixel payload. -/
structure PILImage where
  mode : String
  data : List Nat
  deriving DecidableEq, Repr

/-- A handle to the loaded `QwenImageEditPipeline`; its behaviour lives in
the environment (`Env.run_model`), the handle itself is opaque. -/
structure QwenImageEditPipeline where
  tag : Nat
  deriving DecidableEq, Repr

/-- The value of `torch.Generator(device=device).manual_seed(seed)`. -/
structure TorchGenerator where
  device : String
  seed : Nat
  deriving DecidableEq, Repr

/-- The keyword-argument dictionary `inputs` built by `edit_image`
(lines 61-77 of `main.py`).  `reference_image` is present exactly when the
request supplied one.  The guidance scale is a Python float that is only
passed through, never computed with, so it is carried as a rational. -/
structure ModelInputs where
  image : PILImage
  prompt : String
  negative_prompt : String
  num_inference_steps : Int
  true_cfg_scale : Rat
  generator : TorchGenerator
  reference_image : Option PILImage
  deriving DecidableEq, Repr

/-- The object returned by the pipeline call: `output.images` is a list of
generated images. -/
structure ModelOutput where
  images : List PILImage
  deriving DecidableEq, Repr

/-- The environment of third-party operations used by `main.py`.  Each
fallible operation returns `Except String`, the error being the Python
exception's message (`str(e)`). -/
structure Env where
  /-- `torch.cuda.is_available()`. -/
  cuda_is_available : Bool
  /-- `QwenImageEditPipeline.from_pretrained(...)` followed by `.to(device)`
  and `enable_model_cpu_offload()`, as a single fallible load step taking
  the device string (which also selects the torch dtype). -/
  from_pretrained : String → Except String QwenImageEditPipeline
  /-- `Image.open(io.BytesIO(bytes))` — fails on undecodable bytes. -/
  image_open : List Nat → Except String PILImage
  /-- The pixel payload produced by `PIL.Image.convert(mode)`; the mode of
  the result is fixed by `pil_convert` below, only the pixels are abstract. -/
  convert_data : PILImage → String → List Nat
  /-- Calling the pipeline: `model(**inputs)` under `torch.inference_mode()`. -/
  run_model : QwenImageEditPipeline → ModelInputs → Except String ModelOutput
  /-- `image.save(buffer, format="PNG")` followed by `buffer.getvalue()`. -/
  encode_png : PILImage → Except String (List Nat)

/-- `img.convert(mode)`: the result's mode is `mode` (a PIL guarantee); the
pixel conversion itself is delegated to the environment. -/
def pil_convert (env : Env) (img : PILImage) (mode : String) : PILImage :=
  { mode := mode, data := env.convert_data img mode }

/-- Process-level mutable state of `main.py`: the global `model` (line 24,
`None` until the startup hook succeeds) and the global `device` string
(line 25). -/
structure ServerState where
  model : Option QwenImageEditPipeline
  device : String
  deriving DecidableEq, Repr

/-- Module import time: `model = None` and
`device = "cuda" if torch.cuda.is_available() else "cpu"` (lines 24-25). -/
def initial_state (env : Env) : ServerState :=
  { model := none, device := if env.cuda_is_available then "cuda" else "cpu" }

/-- The `@app.on_event("startup")` hook `load_model` (lines 28-41): try to
load the pipeline; on success store it in the global, on any exception
print and set `model = None`. -/
def load_model (env : Env) (st : ServerState) : ServerState :=
  match env.from_pretrained st.device with
  | .ok m => { st with model := some m }
  | .error _ => { st with model := none }

/-- An incoming multipart request to `/edit-image`.  `none` in an optional
field means the form field was omitted, so FastAPI's declared default
applies (`File(None)`, `Form("")`, `Form(50)`, `Form(4.0)`);
`image` and `edit_type` are required (`File(...)`, `Form(...)`). -/
structure Request where
  image : UploadFile
  reference_image : Option UploadFile
  edit_type : String
  prompt : Option String
  negative_prompt : Option String
  num_inference_steps : Option Int
  true_cfg_scale : Option Rat
  deriving DecidableEq, Repr

/-- The form-field values after FastAPI applies the defaults declared in
the `edit_image` signature (lines 44-51). -/
structure FormValues where
  prompt : String
  negative_prompt : String
  num_inference_steps : Int
  true_cfg_scale : Rat
  deriving DecidableEq, Repr

/-- FastAPI's defaulting of the scalar form fields of `edit_image`:
`prompt: str = Form("")`, `negative_prompt: str = Form("")`,
`num_inference_steps: int = Form(50)`, `true_cfg_scale: float = Form(4.0)`. -/
def form_defaults (req : Request) : FormValues :=
  { prompt := req.prompt.getD ""
    negative_prompt := req.negative_prompt.getD ""
    num_inference_steps := req.num_inference_steps.getD 50
    true_cfg_scale := req.true_cfg_scale.getD 4 }

/-- The prompt lookup table of `get_prompt_for_edit_type` (lines 100-106),
the Python dict literal `prompts` as an association list. -/
def prompts : List (String × String) :=
  [("remove_bg", "Remove the background from this image, keeping only the main subject with a transparent background."),
   ("replace_bg_auto", "Replace the background with an aesthetically pleasing, contextually appropriate background."),
   ("replace_bg_custom", "Replace the background with the reference image, ensuring seamless integration."),
   ("enhance", "Enhance the image quality, improve sharpness, color balance, and overall visual appeal."),
   ("colorize", "Adjust colors, improve contrast, and enhance visual quality while maintaining original style.")]

/-- `get_prompt_for_edit_type` (lines 99-107): `prompts.get(edit_type,
"Enhance this image appropriately.")`. -/
def get_prompt_for_edit_type (edit_type : String) : String :=
  (prompts.lookup edit_type).getD "Enhance this image appropriately."

/-- The body of `edit_image`'s try-block up to and including the `inputs`
dictionary (lines 56-77): decode the main upload, convert it to RGB, build
the keyword arguments — with the Python truthiness test
`prompt or get_prompt_for_edit_type(edit_type)` (empty string is falsy)
and the hard-coded `manual_seed(42)` generator — and, when a reference
upload is present, decode and convert it and add it to the dictionary. -/
def gather_inputs (env : Env) (device : String) (req : Request)
    (fv : FormValues) : Except String ModelInputs := do
  let pil_image ← env.image_open req.image.content
  let pil_image := pil_convert env pil_image "RGB"
  let base : ModelInputs :=
    { image := pil_image
      prompt := if fv.prompt = "" then get_prompt_for_edit_type req.edit_type
                else fv.prompt
      negative_prompt := fv.negative_prompt
      num_inference_steps := fv.num_inference_steps
      true_cfg_scale := fv.true_cfg_scale
      generator := { device := device, seed := 42 }
      reference_image := none }
  match req.reference_image with
  | none => pure base
  | some ref => do
      let ref_img ← env.image_open ref.content
      pure { base with reference_image := some (pil_convert env ref_img "RGB") }

/-- An HTTP response from the endpoint: either the `StreamingResponse`
(body bytes, media type, headers) or the JSON error produced by a raised
`HTTPException` (status code and detail string). -/
inductive Response where
  | streaming (body : List Nat) (media_type : String)
      (headers : List (String × String)) : Response
  | httpError (status : Nat) (detail : String) : Response
  deriving DecidableEq, Repr

/-- The detail of the guard at lines 53-54 of `main.py`. -/
def modelNotLoadedDetail : String := "Model not loaded. Please check server logs."

/-- The headers of the success response (lines 88-93). -/
def successHeaders : List (String × String) :=
  [("Content-Disposition", "attachment; filename=edited_image.png")]

/-- The try-block of `edit_image` (lines 56-93): gather the inputs, call
the model, take `output.images[0]` (an IndexError when the list is empty),
PNG-encode it and build the streaming response; any exception propagates
as `Except.error` with its message. -/
def try_edit (env : Env) (m : QwenImageEditPipeline) (device : String)
    (req : Request) : Except String Response := do
  let inputs ← gather_inputs env device req (form_defaults req)
  let output ← env.run_model m inputs
  match output.images with
  | [] => throw "list index out of range"
  | edited_image :: _ => do
      let img_bytes ← env.encode_png edited_image
      pure (.streaming img_bytes "image/png" successHeaders)

/-- The try/except of `edit_image` (lines 56-97) once the model guard has
passed: run the try-block and turn any exception `e` into a 500 with
detail `str(e)` (line 97). -/
def edit_with_model (env : Env) (st : ServerState) (m : QwenImageEditPipeline)
    (req : Request) : ServerState × Response :=
  match try_edit env m st.device req with
  | .ok resp => (st, resp)
  | .error e => (st, .httpError 500 e)

/-- The `POST /edit-image` handler `edit_image` (lines 43-97): reject with
a 500 when the global model is `None` (lines 53-54); otherwise run the
try/except.  The handler never assigns the globals, so the state component
is returned unchanged. -/
def edit_image (env : Env) (st : ServerState) (req : Request) :
    ServerState × Response :=
  match st.model with
  | none => (st, .httpError 500 modelNotLoadedDetail)
  | some m => edit_with_model env st m req

/-- An HTTP route registered on the FastAPI app. -/
structure Route where
  method : String
  path : String
  deriving DecidableEq, Repr

/-- The routes `main.py` registers: exactly the one `@app.post("/edit-image")`
decorator (line 43). -/
def app_routes : List Route := [{ method := "POST", path := "/edit-image" }]

/-- Sequential request handling after startup: each request is served by
`edit_image` against the state the previous one left behind. -/
def handle_requests (env : Env) : ServerState → List Request →
    ServerState × List Response
  | st, [] => (st, [])
  | st, r :: rs =>
    let step := edit_image env st r
    let rest := handle_requests env step.1 rs
    (rest.1, step.2 :: rest.2)

/-- The process lifecycle: module import initialises the globals, the
startup hook runs `load_model` once, then requests are handled. -/
def run_server (env : Env) (reqs : List Request) :
    ServerState × List Response :=
  handle_requests env (load_model env (initial_state env)) reqs

end QwenBackend


namespace QwenBackend

/-! ### Concrete instances used to exercise the embedding -/

/-- A concrete environment in which every third-party operation succeeds:
decoding yields an RGBA image over the uploaded bytes, pixel conversion
keeps the payload, the model produces one RGB image, PNG encoding returns
the pixel payload. -/
def happyEnv : Env :=
  { cuda_is_available := false
    from_pretrained := fun _ => .ok { tag := 0 }
    image_open := fun bs => .ok { mode := "RGBA", data := bs }
    convert_data := fun img _ => img.data
    run_model := fun _ _ => .ok { images := [{ mode := "RGB", data := [7, 7] }] }
    encode_png := fun img => .ok img.data }

/-- A concrete environment whose image decoding always raises. -/
def badDecodeEnv : Env :=
  { happyEnv with image_open := fun _ => .error "cannot identify image file" }

/-- A concrete environment whose startup model load raises. -/
def badLoadEnv : Env :=
  { happyEnv with from_pretrained := fun _ => .error "connection error" }

/-- A concrete request with no reference image and every optional form
field omitted. -/
def sampleRequest : Request :=
  { image := { content := [1, 2, 3] }
    reference_image := none
    edit_type := "enhance"
    prompt := none
    negative_prompt := none
    num_inference_steps := none
    true_cfg_scale := none }

/-- A server state holding a loaded model on the CPU device. -/
def sampleState : ServerState := { model := some { tag := 0 }, device := "cpu" }

/-- A server state in which the startup load left the model unloaded. -/
def unloadedState : ServerState := { model := none, device := "cpu" }

/-- The inputs dictionary `gather_inputs` produces for `sampleRequest`
under `happyEnv` on device `"cpu"`. -/
def sampleInputs : ModelInputs :=
  { image := { mode := "RGB", data := [1, 2, 3] }
    prompt := "Enhance the image quality, improve sharpness, color balance, and overall visual appeal."
    negative_prompt := ""
    num_inference_steps := 50
    true_cfg_scale := 4
    generator := { device := "cpu", seed := 42 }
    reference_image := none }

/-! ### Helper lemmas -/

theorem exceptBind_ok {ε α β : Type} (a : α) (f : α → Except ε β) :
    (Except.ok a >>= f : Except ε β) = f a := rfl

theorem exceptBind_error {ε α β : Type} (e : ε) (f : α → Except ε β) :
    ((Except.error e : Except ε α) >>= f) = .error e := rfl

theorem exceptPure {ε α : Type} (a : α) : (pure a : Except ε α) = .ok a := rfl

theorem exceptThrow {ε α : Type} (e : ε) : (throw e : Except ε α) = .error e := rfl

/-- Characterisation of a successful `gather_inputs` run: every field of
the resulting keyword-argument dictionary. -/
theorem gather_inputs_ok {env : Env} {device : String} {req : Request}
    {fv : FormValues} {inputs : ModelInputs}
    (h : gather_inputs env device req fv = .ok inputs) :
    (∃ pil, env.image_open req.image.content = .ok pil ∧
        inputs.image = pil_convert env pil "RGB") ∧
    inputs.prompt = (if fv.prompt = "" then get_prompt_for_edit_type req.edit_type else fv.prompt) ∧
    inputs.negative_prompt = fv.negative_prompt ∧
    inputs.num_inference_steps = fv.num_inference_steps ∧
    inputs.true_cfg_scale = fv.true_cfg_scale ∧
    inputs.generator = { device := device, seed := 42 } ∧
    (req.reference_image = none → inputs.reference_image = none) ∧
    (∀ ref, req.reference_image = some ref →
        ∃ rimg, env.image_open ref.content = .ok rimg ∧
          inputs.reference_image = some (pil_convert env rimg "RGB")) := by
  unfold gather_inputs at h
  cases hpil : env.image_open req.image.content with
  | error e =>
    rw [hpil, exceptBind_error] at h
    exact absurd h (by simp)
  | ok pil =>
    rw [hpil] at h
    cases href : req.reference_image with
    | none =>
      rw [href] at h
      simp only [exceptBind_ok, exceptPure, Except.ok.injEq] at h
      subst h
      refine ⟨⟨pil, rfl, rfl⟩, rfl, rfl, rfl, rfl, rfl, fun _ => rfl, ?_⟩
      intro ref hr
      cases hr
    | some ref =>
      rw [href] at h
      simp only [exceptBind_ok] at h
      cases hrimg : env.image_open ref.content with
      | error e =>
        rw [hrimg] at h
        simp only [Except.map_error, exceptBind_error] at h
        exact absurd h (by simp)
      | ok rimg =>
        rw [hrimg] at h
        simp only [Except.map_ok, exceptBind_ok, exceptPure, Except.ok.injEq] at h
        subst h
        refine ⟨⟨pil, rfl, rfl⟩, rfl, rfl, rfl, rfl, rfl, ?_, ?_⟩
        · intro hc; cases hc
        intro ref2 hr2
        injection hr2 with hr2
        subst hr2
        exact ⟨rimg, hrimg, rfl⟩

/-- A successful try-block always produced the PNG streaming response of
the first generated image. -/
theorem try_edit_ok {env : Env} {m : QwenImageEditPipeline} {device : String}
    {req : Request} {resp : Response}
    (h : try_edit env m device req = .ok resp) :
    ∃ inputs output first rest body,
      gather_inputs env device req (form_defaults req) = .ok inputs ∧
      env.run_model m inputs = .ok output ∧
      output.images = first :: rest ∧
      env.encode_png first = .ok body ∧
      resp = .streaming body "image/png" successHeaders := by
  unfold try_edit at h
  cases hg : gather_inputs env device req (form_defaults req) with
  | error e => rw [hg, exceptBind_error] at h; exact absurd h (by simp)
  | ok inputs =>
    rw [hg, exceptBind_ok] at h
    cases hr : env.run_model m inputs with
    | error e => rw [hr, exceptBind_error] at h; exact absurd h (by simp)
    | ok output =>
      rw [hr, exceptBind_ok] at h
      cases him : output.images with
      | nil =>
        rw [him] at h
        simp only [exceptThrow] at h
        exact absurd h (by simp)
      | cons first rest =>
        rw [him] at h
        simp only [] at h
        cases hpng : env.encode_png first with
        | error e =>
          rw [hpng] at h
          simp only [Except.map_error, exceptBind_error] at h
          exact absurd h (by simp)
        | ok body =>
          rw [hpng] at h
          simp only [Except.map_ok, exceptBind_ok, exceptPure, Except.ok.injEq] at h
          exact ⟨inputs, output, first, rest, body, rfl, hr, him, hpng, h.symm⟩

/-- Conversely, when every step succeeds the try-block returns the PNG
streaming response. -/
theorem try_edit_eq_ok {env : Env} {m : QwenImageEditPipeline} {device : String}
    {req : Request} {inputs : ModelInputs} {output : ModelOutput}
    {first : PILImage} {rest : List PILImage} {body : List Nat}
    (hg : gather_inputs env device req (form_defaults req) = .ok inputs)
    (hr : env.run_model m inputs = .ok output)
    (him : output.images = first :: rest)
    (hpng : env.encode_png first = .ok body) :
    try_edit env m device req = .ok (.streaming body "image/png" successHeaders) := by
  unfold try_edit
  rw [hg, exceptBind_ok, hr, exceptBind_ok, him]
  simp only [hpng, Except.map_ok, exceptBind_ok, exceptPure]

/-- With the model unloaded the handler immediately raises the fixed 500. -/
theorem edit_image_unloaded (env : Env) (st : ServerState) (req : Request)
    (h : st.model = none) :
    edit_image env st req = (st, .httpError 500 modelNotLoadedDetail) := by
  unfold edit_image
  rw [h]

/-- Reducing the handler once the model guard has matched. -/
theorem edit_image_loaded (env : Env) (st : ServerState) (req : Request)
    (m : QwenImageEditPipeline) (hm : st.model = some m) :
    edit_image env st req = edit_with_model env st m req := by
  unfold edit_image
  rw [hm]

/-- Reducing the try/except when the try-block succeeds. -/
theorem edit_with_model_eq_ok {env : Env} {st : ServerState}
    {m : QwenImageEditPipeline} {req : Request} {resp : Response}
    (htry : try_edit env m st.device req = .ok resp) :
    edit_with_model env st m req = (st, resp) := by
  unfold edit_with_model
  rw [htry]

/-- Reducing the try/except when the try-block raises. -/
theorem edit_with_model_eq_error {env : Env} {st : ServerState}
    {m : QwenImageEditPipeline} {req : Request} {e : String}
    (htry : try_edit env m st.device req = .error e) :
    edit_with_model env st m req = (st, .httpError 500 e) := by
  unfold edit_with_model
  rw [htry]

/-- The handler never mutates the process state. -/
theorem edit_image_fst (env : Env) (st : ServerState) (req : Request) :
    (edit_image env st req).1 = st := by
  cases hm : st.model with
  | none => rw [edit_image_unloaded env st req hm]
  | some m =>
    rw [edit_image_loaded env st req m hm]
    cases htry : try_edit env m st.device req with
    | ok r => rw [edit_with_model_eq_ok htry]
    | error e => rw [edit_with_model_eq_error htry]

/-- Requests served against an unloaded model all fail with the fixed 500
and leave the state untouched. -/
theorem handle_requests_unloaded (env : Env) (reqs : List Request) :
    ∀ st : ServerState, st.model = none →
      (handle_requests env st reqs).1 = st ∧
      ∀ resp ∈ (handle_requests env st reqs).2,
        resp = .httpError 500 modelNotLoadedDetail := by
  induction reqs with
  | nil =>
    intro st h
    exact ⟨rfl, by intro r hr; cases hr⟩
  | cons r rs ih =>
    intro st h
    have hstep := edit_image_unloaded env st r h
    obtain ⟨h1, h2⟩ := ih st h
    constructor
    · simp only [handle_requests, hstep, h1]
    · intro resp hresp
      simp only [handle_requests, hstep, List.mem_cons] at hresp
      rcases hresp with rfl | hresp
      · rfl
      · exact h2 resp hresp

end QwenBackend

namespace QwenBackend

/-! ### Claim theorems -/

/-- C1: `get_prompt_for_edit_type` is a static string-to-string lookup
with a fallback — each of the five keys `remove_bg`, `replace_bg_auto`,
`replace_bg_custom`, `enhance`, `colorize` maps to its fixed default
prompt, and every other input string maps to
`"Enhance this image appropriately."`. -/
theorem prompt_lookup_table_with_fallback :
    get_prompt_for_edit_type "remove_bg" = "Remove the background from this image, keeping only the main subject with a transparent background." ∧
    get_prompt_for_edit_type "replace_bg_auto" = "Replace the background with an aesthetically pleasing, contextually appropriate background." ∧
    get_prompt_for_edit_type "replace_bg_custom" = "Replace the background with the reference image, ensuring seamless integration." ∧
    get_prompt_for_edit_type "enhance" = "Enhance the image quality, improve sharpness, color balance, and overall visual appeal." ∧
    get_prompt_for_edit_type "colorize" = "Adjust colors, improve contrast, and enhance visual quality while maintaining original style." ∧
    ∀ s : String, s ≠ "remove_bg" → s ≠ "replace_bg_auto" →
      s ≠ "replace_bg_custom" → s ≠ "enhance" → s ≠ "colorize" →
      get_prompt_for_edit_type s = "Enhance this image appropriately." := by
  refine ⟨rfl, rfl, rfl, rfl, rfl, ?_⟩
  intro s h1 h2 h3 h4 h5
  simp only [get_prompt_for_edit_type, prompts, List.lookup,
    beq_eq_false_iff_ne.mpr h1, beq_eq_false_iff_ne.mpr h2,
    beq_eq_false_iff_ne.mpr h3, beq_eq_false_iff_ne.mpr h4,
    beq_eq_false_iff_ne.mpr h5, Option.getD_none]

/-- C1 witness: a string outside the table falls back to the default. -/
theorem prompt_lookup_table_with_fallback_witness :
    get_prompt_for_edit_type "sketch" = "Enhance this image appropriately." :=
  prompt_lookup_table_with_fallback.2.2.2.2.2 "sketch" (by decide) (by decide)
    (by decide) (by decide) (by decide)

/-- C2 counterexample: the claim that the error payload is the same
generic error regardless of the cause is false — an unloaded model and a
failed image decode both yield status 500 but carry different detail
strings. -/
theorem error_payload_differs_counterexample :
    (edit_image happyEnv unloadedState sampleRequest).2
        = .httpError 500 modelNotLoadedDetail ∧
    (edit_image badDecodeEnv sampleState sampleRequest).2
        = .httpError 500 "cannot identify image file" ∧
    modelNotLoadedDetail ≠ "cannot identify image file" :=
  ⟨rfl, rfl, by decide⟩

/-- C2 (amended): every failure during handling of a request to
`/edit-image` is reported with HTTP status 500; the detail string,
however, is cause-dependent (the fixed unloaded-model message or `str(e)`
of the caught exception), not a single generic payload. -/
theorem failures_reported_as_http_500
    (env : Env) (st : ServerState) (req : Request) (status : Nat)
    (detail : String)
    (h : (edit_image env st req).2 = .httpError status detail) :
    status = 500 := by
  cases hm : st.model with
  | none =>
    rw [edit_image_unloaded env st req hm] at h
    injection h with h1 h2
    exact h1.symm
  | some m =>
    rw [edit_image_loaded env st req m hm] at h
    cases htry : try_edit env m st.device req with
    | ok resp =>
      rw [edit_with_model_eq_ok htry] at h
      obtain ⟨_, _, _, _, _, _, _, _, _, hresp⟩ := try_edit_ok htry
      rw [hresp] at h
      cases h
    | error e =>
      rw [edit_with_model_eq_error htry] at h
      injection h with h1 h2
      exact h1.symm

/-- C2 witness: the amended theorem applied to a concrete failing request. -/
theorem failures_reported_as_http_500_witness : (500 : Nat) = 500 :=
  failures_reported_as_http_500 happyEnv unloadedState sampleRequest 500
    modelNotLoadedDetail rfl

/-- C3: the generator handed to the model call is seeded with the
hard-coded constant 42 for every request, whatever the form fields or
image content, so the randomness source is identical across any two
requests. -/
theorem generator_seed_constant_42
    (env : Env) (device : String) (req : Request) (fv : FormValues)
    (inputs : ModelInputs)
    (h : gather_inputs env device req fv = .ok inputs) :
    inputs.generator = { device := device, seed := 42 } ∧
    ∀ (env2 : Env) (device2 : String) (req2 : Request) (fv2 : FormValues)
      (inputs2 : ModelInputs),
      gather_inputs env2 device2 req2 fv2 = .ok inputs2 →
      inputs2.generator.seed = inputs.generator.seed := by
  have h1 := (gather_inputs_ok h).2.2.2.2.2.1
  refine ⟨h1, ?_⟩
  intro env2 device2 req2 fv2 inputs2 h2
  have h3 := (gather_inputs_ok h2).2.2.2.2.2.1
  rw [h1, h3]

/-- C3 witness: the seed of the inputs built for the sample request. -/
theorem generator_seed_constant_42_witness :
    sampleInputs.generator = { device := "cpu", seed := 42 } :=
  (generator_seed_constant_42 happyEnv "cpu" sampleRequest
    (form_defaults sampleRequest) sampleInputs rfl).1

/-- C4: the app registers exactly the single `POST /edit-image` endpoint
(the request type carries the multipart fields image, reference image,
edit type, prompt, negative prompt, step count, guidance scale); a
request without the optional reference image is accepted and handled, and
when every step succeeds the endpoint returns the PNG byte stream. -/
theorem single_post_endpoint_optional_reference :
    app_routes = [{ method := "POST", path := "/edit-image" }] ∧
    ∀ (env : Env) (st : ServerState) (m : QwenImageEditPipeline)
      (req : Request) (inputs : ModelInputs) (output : ModelOutput)
      (first : PILImage) (rest : List PILImage) (body : List Nat),
      st.model = some m →
      req.reference_image = none →
      gather_inputs env st.device req (form_defaults req) = .ok inputs →
      env.run_model m inputs = .ok output →
      output.images = first :: rest →
      env.encode_png first = .ok body →
      edit_image env st req = (st, .streaming body "image/png" successHeaders) := by
  refine ⟨rfl, ?_⟩
  intro env st m req inputs output first rest body hm hrefn hg hr him hpng
  rw [edit_image_loaded env st req m hm,
    edit_with_model_eq_ok (try_edit_eq_ok hg hr him hpng)]

/-- C4 witness: a full successful run on a request without a reference
image. -/
theorem single_post_endpoint_optional_reference_witness :
    edit_image happyEnv sampleState sampleRequest
      = (sampleState, .streaming [7, 7] "image/png" successHeaders) :=
  single_post_endpoint_optional_reference.2 happyEnv sampleState { tag := 0 }
    sampleRequest sampleInputs { images := [{ mode := "RGB", data := [7, 7] }] }
    { mode := "RGB", data := [7, 7] } [] [7, 7] rfl rfl rfl rfl rfl rfl

/-- C5: every successful `/edit-image` response streams the PNG encoding
of the first image of the model's output, with media type `image/png` and
a Content-Disposition header naming `edited_image.png`. -/
theorem success_response_is_png_of_first_image
    (env : Env) (st : ServerState) (req : Request) (st2 : ServerState)
    (body : List Nat) (mt : String) (hdrs : List (String × String))
    (h : edit_image env st req = (st2, .streaming body mt hdrs)) :
    mt = "image/png" ∧ hdrs = successHeaders ∧
    ∃ m inputs output first rest,
      st.model = some m ∧
      gather_inputs env st.device req (form_defaults req) = .ok inputs ∧
      env.run_model m inputs = .ok output ∧
      output.images = first :: rest ∧
      env.encode_png first = .ok body := by
  cases hm : st.model with
  | none =>
    rw [edit_image_unloaded env st req hm] at h
    simp only [Prod.mk.injEq] at h
    exact absurd h.2 (by simp)
  | some m =>
    rw [edit_image_loaded env st req m hm] at h
    cases htry : try_edit env m st.device req with
    | error e =>
      rw [edit_with_model_eq_error htry] at h
      simp only [Prod.mk.injEq] at h
      exact absurd h.2 (by simp)
    | ok resp =>
      rw [edit_with_model_eq_ok htry] at h
      simp only [Prod.mk.injEq] at h
      obtain ⟨hst, hresp⟩ := h
      obtain ⟨inputs, output, first, rest, b2, hg, hr, him, hpng, hshape⟩ :=
        try_edit_ok htry
      rw [hshape] at hresp
      cases hresp
      exact ⟨rfl, rfl, m, inputs, output, first, rest, rfl, hg, hr, him, hpng⟩

/-- C5 witness: the theorem applied to a concrete successful run. -/
theorem success_response_is_png_of_first_image_witness :
    successHeaders = successHeaders :=
  (success_response_is_png_of_first_image happyEnv sampleState sampleRequest
    sampleState [7, 7] "image/png" successHeaders rfl).2.1

/-- C6: handling any request leaves the process-level state — the loaded
model reference and the selected device — unchanged, whether the request
succeeds or fails. -/
theorem handler_preserves_process_state
    (env : Env) (st : ServerState) (req : Request) :
    (edit_image env st req).1.model = st.model ∧
    (edit_image env st req).1.device = st.device := by
  rw [edit_image_fst]
  exact ⟨rfl, rfl⟩

/-- C7: the model is loaded only by the startup hook; if that load fails,
the model stays `None` for the whole run — it is never reloaded by the
handler — and every request is rejected with the fixed 500 error. -/
theorem model_loaded_only_at_startup_failure_rejects
    (env : Env) (reqs : List Request) (e : String)
    (h : env.from_pretrained (initial_state env).device = .error e) :
    (run_server env reqs).1.model = none ∧
    ∀ resp ∈ (run_server env reqs).2,
      resp = .httpError 500 modelNotLoadedDetail := by
  have hload : load_model env (initial_state env)
      = { model := none, device := (initial_state env).device } := by
    unfold load_model
    rw [h]
  unfold run_server
  rw [hload]
  obtain ⟨h1, h2⟩ := handle_requests_unloaded env reqs
    { model := none, device := (initial_state env).device } rfl
  exact ⟨by rw [h1], h2⟩

/-- C7 witness: a failing load followed by one request. -/
theorem model_loaded_only_at_startup_failure_rejects_witness :
    (run_server badLoadEnv [sampleRequest]).1.model = none :=
  (model_loaded_only_at_startup_failure_rejects badLoadEnv [sampleRequest]
    "connection error" rfl).1

/-- C8: prompt precedence — an empty (or omitted, hence defaulted-empty)
prompt form field makes the model call use the edit type's default prompt,
while any non-empty prompt is passed verbatim, the edit type not affecting
it. -/
theorem prompt_precedence
    (env : Env) (device : String) (req : Request) (inputs : ModelInputs)
    (h : gather_inputs env device req (form_defaults req) = .ok inputs) :
    (req.prompt = some "" → inputs.prompt = get_prompt_for_edit_type req.edit_type) ∧
    (req.prompt = none → inputs.prompt = get_prompt_for_edit_type req.edit_type) ∧
    ∀ p : String, req.prompt = some p → p ≠ "" → inputs.prompt = p := by
  have hp := (gather_inputs_ok h).2.1
  refine ⟨?_, ?_, ?_⟩
  · intro he
    rw [hp]
    simp [form_defaults, he]
  · intro he
    rw [hp]
    simp [form_defaults, he]
  · intro p he hne
    rw [hp]
    simp [form_defaults, he, hne]

/-- C8 witness: the omitted prompt of the sample request yields the edit
type's default prompt. -/
theorem prompt_precedence_witness :
    sampleInputs.prompt = get_prompt_for_edit_type sampleRequest.edit_type :=
  (prompt_precedence happyEnv "cpu" sampleRequest sampleInputs rfl).2.1 rfl

/-- C9: the main upload is always converted to RGB mode before reaching
the model, and so is the reference image whenever one is provided. -/
theorem uploads_converted_to_rgb
    (env : Env) (device : String) (req : Request) (fv : FormValues)
    (inputs : ModelInputs)
    (h : gather_inputs env device req fv = .ok inputs) :
    inputs.image.mode = "RGB" ∧
    ∀ rimg : PILImage, inputs.reference_image = some rimg →
      rimg.mode = "RGB" := by
  obtain ⟨⟨pil, hpil, himg⟩, _, _, _, _, _, hnone, hsome⟩ := gather_inputs_ok h
  constructor
  · rw [himg]
    rfl
  · intro rimg hr
    cases hrc : req.reference_image with
    | none =>
      rw [hnone hrc] at hr
      cases hr
    | some ref =>
      obtain ⟨r2, hrd, hr2⟩ := hsome ref hrc
      rw [hr2] at hr
      injection hr with hr
      subst hr
      rfl

/-- C9 witness: the sample request's decoded RGBA upload reaches the model
in RGB mode. -/
theorem uploads_converted_to_rgb_witness : sampleInputs.image.mode = "RGB" :=
  (uploads_converted_to_rgb happyEnv "cpu" sampleRequest
    (form_defaults sampleRequest) sampleInputs rfl).1

/-- C10: with every optional scalar form field omitted, the model is
called with the edit type's default prompt, an empty negative prompt,
50 inference steps and guidance scale 4.0. -/
theorem omitted_form_fields_use_defaults
    (env : Env) (device : String) (req : Request) (inputs : ModelInputs)
    (hp : req.prompt = none) (hn : req.negative_prompt = none)
    (hs : req.num_inference_steps = none) (hc : req.true_cfg_scale = none)
    (h : gather_inputs env device req (form_defaults req) = .ok inputs) :
    inputs.prompt = get_prompt_for_edit_type req.edit_type ∧
    inputs.negative_prompt = "" ∧
    inputs.num_inference_steps = 50 ∧
    inputs.true_cfg_scale = 4 := by
  obtain ⟨_, hpr, hneg, hsteps, hcfg, _, _, _⟩ := gather_inputs_ok h
  refine ⟨?_, ?_, ?_, ?_⟩
  · rw [hpr]
    simp [form_defaults, hp]
  · rw [hneg]
    simp [form_defaults, hn]
  · rw [hsteps]
    simp [form_defaults, hs]
  · rw [hcfg]
    simp [form_defaults, hc]

/-- C10 witness: the defaults on the sample request with all optional
fields omitted. -/
theorem omitted_form_fields_use_defaults_witness :
    sampleInputs.prompt = get_prompt_for_edit_type sampleRequest.edit_type ∧
    sampleInputs.negative_prompt = "" ∧
    sampleInputs.num_inference_steps = 50 ∧
    sampleInputs.true_cfg_scale = 4 :=
  omitted_form_fields_use_defaults happyEnv "cpu" sampleRequest sampleInputs
    rfl rfl rfl rfl rfl

end QwenBackend
